import Mathlib

/-!
# GKE scopes and controller bootstrap of cluster-api-provider-gcp

A shallow embedding of

* `cloud/scope/gke_cluster.go` (`GKEClusterScope`),
* `cloud/scope/gke_machine_pool.go` and `gkemachinepool.go` (`GKEMachinePoolScope`),
* the controller and webhook registration of `main.go`.

Conventions of the embedding.

* A Go pointer or interface value is an `Option`: `none` is `nil`.
* A Go function returning `(*T, error)` returns a pair `Option T × Option GoError`.
* A method that dereferences a pointer returns an `Option`: `none` stands for the run-time
  panic of a nil dereference, `some` for normal completion.
* Calls into other packages whose result the code branches on (`container.NewService`,
  `patch.NewHelper`, `klogr.New`, the manager set-up calls of `main`) take their outcome
  from an explicit environment record, so every theorem quantifies over all outcomes.
-/

namespace CapiGcp

/-! ## Go values shared by all files -/

/-- A Go `error` value. Only its message text is observable in the code at hand. -/
structure GoError where
  msg : String
  deriving DecidableEq, Repr

/-- The method `Error()` of a Go `error`. -/
def GoError.Error (e : GoError) : String := e.msg

namespace errors

/-- The call `errors.New(msg)` of `github.com/pkg/errors`. -/
def New (msg : String) : GoError := ⟨msg⟩

/-- The call `errors.Wrap(err, msg)`: the message is put in front of the cause. -/
def Wrap (err : GoError) (msg : String) : GoError := ⟨msg ++ ": " ++ err.msg⟩

/-- The call `errors.Errorf(text ++ "%v", err)` with the cause formatted last. -/
def Errorf (text : String) (err : GoError) : GoError := ⟨text ++ err.msg⟩

end errors

/-- A `client.Client` of controller-runtime, identified by a handle. -/
structure Client where
  handle : Nat
  deriving DecidableEq, Repr

/-- A `logr.Logger`, identified by a handle. -/
structure Logger where
  handle : Nat
  deriving DecidableEq, Repr

/-- A `*container.Service` of the GKE API, identified by a handle. -/
structure ContainerService where
  handle : Nat
  deriving DecidableEq, Repr

/-- The struct `GKEClients` embedded in the scope parameters; the code reads and writes its
field `Container`. -/
structure GKEClients where
  Container : Option ContainerService
  deriving DecidableEq

/-- A Go `map[string]string` that is not nil. -/
abbrev StringMap := Finmap (fun _ : String => String)

/-- The fields of `metav1.ObjectMeta` that the scopes and the commit touch. `Annotations` is a
Go map and may be nil. -/
structure ObjectMeta where
  Name : String
  Namespace : String
  ResourceVersion : String
  Annotations : Option StringMap
  deriving DecidableEq

/-- The type `clusterv1.Cluster`: the scopes only hold a reference to it. -/
structure Cluster extends ObjectMeta
  deriving DecidableEq

/-- The type `capiv1exp.MachinePool`: the scope only holds a reference to it. -/
structure MachinePool extends ObjectMeta
  deriving DecidableEq

/-- The fields of `exp.GKEClusterSpec` read by the scopes. -/
structure GKEClusterSpec where
  Project : String
  Region : String
  deriving DecidableEq

/-- The type `exp.GKECluster`. -/
structure GKECluster extends ObjectMeta where
  Spec : GKEClusterSpec
  deriving DecidableEq

/-- The type `capierrors.MachineStatusError`, a Go string type. -/
abbrev MachineStatusError := String

/-- The desired state of a node pool. No function of the scope reads or writes inside it, so
it is kept as one uninterpreted value. -/
structure GKEMachinePoolSpec where
  raw : String
  deriving DecidableEq

/-- The fields of `exp.GKEMachinePoolStatus` written by the scope. `FailureReason` and
`FailureMessage` are Go pointers. -/
structure GKEMachinePoolStatus where
  Ready : Bool
  FailureReason : Option MachineStatusError
  FailureMessage : Option String
  deriving DecidableEq

/-- The type `exp.GKEMachinePool`. -/
structure GKEMachinePool extends ObjectMeta where
  Spec : GKEMachinePoolSpec
  Status : GKEMachinePoolStatus
  deriving DecidableEq

/-- Access to the object metadata of a resource kind, as `metav1.Object` gives it. -/
class HasObjectMeta (α : Type) where
  objectMeta : α → ObjectMeta

instance : HasObjectMeta GKECluster := ⟨GKECluster.toObjectMeta⟩

instance : HasObjectMeta GKEMachinePool := ⟨GKEMachinePool.toObjectMeta⟩

/-- The outcomes of the calls into other packages that one constructor invocation makes. -/
structure Env where
  /-- The logger `klogr.New()` returns. -/
  klogrNew : Logger
  /-- The result of `container.NewService(context.TODO())`. -/
  containerNewService : Except GoError ContainerService
  /-- The error of `patch.NewHelper(obj, client)`, `none` when it returns a helper. -/
  patchNewHelperErr : Option GoError

/-! ## The patch helper -/

namespace patch

/-- Modelled from the spec: the patch helper of `sigs.k8s.io/cluster-api/util/patch`, whose
code is not part of the sources. The spec describes it as the part of a Scope that holds
"an immutable deep copy of the object as first observed (baseline)" and "a reference to the
Resource Store Client". -/
structure Helper (α : Type) where
  client : Option Client
  before : α
  deriving DecidableEq

/-- Modelled from the spec: `patch.NewHelper(obj, client)` for a non-nil `obj`. The sources
handle an error result, so whether the call fails is taken from the environment; on success
the helper keeps the client and the baseline copy of `obj`, as the spec describes. -/
def NewHelper {α : Type} (env : Env) (obj : α) (crClient : Option Client) :
    Except GoError (Helper α) :=
  match env.patchNewHelperErr with
  | some err => .error err
  | none => .ok { client := crClient, before := obj }

/-- One conditional update sent to the resource store: the object and the version it is
expected to have there. -/
structure ConditionalUpdate (α : Type) where
  object : α
  expectedVersion : String
  deriving DecidableEq

/-- What a commit did: the error it returned (`none` for success) and the conditional
updates it sent to the store, in order. -/
structure Outcome (α : Type) where
  err : Option GoError
  writes : List (ConditionalUpdate α)

/-- Modelled from the spec: `Helper.Patch(ctx, obj)`, the `Commit` of the spec: it "serializes
current object state, compares to baseline; if unchanged, no I/O and returns success; if
changed, issues a conditional update against the Resource Store Client using the object's
resourceVersion". The answer of the store to an update is the parameter `store`. Sending an
update through a nil client is a nil dereference. -/
def Helper.Patch {α : Type} [DecidableEq α] [HasObjectMeta α]
    (store : Client → ConditionalUpdate α → Option GoError) (h : Helper α) (obj : α) :
    Option (Outcome α) :=
  if obj = h.before then
    some { err := none, writes := [] }
  else
    match h.client with
    | none => none
    | some c =>
      let w : ConditionalUpdate α :=
        { object := obj, expectedVersion := (HasObjectMeta.objectMeta obj).ResourceVersion }
      some { err := store c w, writes := [w] }

end patch

/-! ## `cloud/scope/gke_machine_pool.go` and `cloud/scope/gke_cluster.go` -/

namespace scope

/-- The struct `GKEMachinePoolScopeParams`. -/
structure GKEMachinePoolScopeParams where
  GKEClients : GKEClients
  Client : Option Client
  Logger : Option Logger
  Cluster : Option Cluster
  MachinePool : Option MachinePool
  GKECluster : Option GKECluster
  GKEMachinePool : Option GKEMachinePool

/-- The struct `GKEMachinePoolScope`. -/
structure GKEMachinePoolScope where
  Logger : Option Logger
  client : Option Client
  patchHelper : Option (patch.Helper GKEMachinePool)
  Cluster : Option Cluster
  MachinePool : Option MachinePool
  GKECluster : Option GKECluster
  GKEMachinePool : Option GKEMachinePool
  deriving DecidableEq

/-- The function `NewGKEMachinePoolScope` of `cloud/scope/gke_machine_pool.go`. -/
def NewGKEMachinePoolScope (env : Env) (params : GKEMachinePoolScopeParams) :
    Option GKEMachinePoolScope × Option GoError :=
  match params.Client with
  | none => (none, some (errors.New "client is required when creating a MachineScope"))
  | some _ =>
  match params.MachinePool with
  | none => (none, some (errors.New "machine is required when creating a MachineScope"))
  | some _ =>
  match params.Cluster with
  | none => (none, some (errors.New "cluster is required when creating a MachineScope"))
  | some _ =>
  match params.GKECluster with
  | none => (none, some (errors.New "gke cluster is required when creating a MachineScope"))
  | some _ =>
  match params.GKEMachinePool with
  | none => (none, some (errors.New "gke machine is required when creating a MachineScope"))
  | some pool =>
    let logger : Option Logger :=
      match params.Logger with
      | none => some env.klogrNew
      | some l => some l
    match patch.NewHelper env pool params.Client with
    | .error err => (none, some (errors.Wrap err "failed to init patch helper"))
    | .ok helper =>
      (some
        { client := params.Client
          Cluster := params.Cluster
          MachinePool := params.MachinePool
          GKECluster := params.GKECluster
          GKEMachinePool := params.GKEMachinePool
          Logger := logger
          patchHelper := some helper },
       none)

/-- The struct `GKEClusterScopeParams`. -/
structure GKEClusterScopeParams where
  GKEClients : GKEClients
  Client : Option Client
  Logger : Option Logger
  Cluster : Option Cluster
  GKECluster : Option GKECluster

/-- The struct `GKEClusterScope`. -/
structure GKEClusterScope where
  Logger : Option Logger
  client : Option Client
  patchHelper : Option (patch.Helper GKECluster)
  GKEClients : GKEClients
  Cluster : Option Cluster
  GKECluster : Option GKECluster
  deriving DecidableEq

/-- The function `NewGKEClusterScope` of `cloud/scope/gke_cluster.go`. There is no test of
`params.Client`: it goes to `patch.NewHelper` and into the scope as it is. -/
def NewGKEClusterScope (env : Env) (params : GKEClusterScopeParams) :
    Option GKEClusterScope × Option GoError :=
  match params.Cluster with
  | none => (none, some (errors.New "failed to generate new scope from nil Cluster"))
  | some _ =>
  match params.GKECluster with
  | none => (none, some (errors.New "failed to generate new scope from nil GKECluster"))
  | some gke =>
    let logger : Option Logger :=
      match params.Logger with
      | none => some env.klogrNew
      | some l => some l
    match env.containerNewService with
    | .error err => (none, some (errors.Errorf "failed to create gke compute client: " err))
    | .ok containerSvc =>
      let clients : GKEClients :=
        match params.GKEClients.Container with
        | none => { params.GKEClients with Container := some containerSvc }
        | some _ => params.GKEClients
      match patch.NewHelper env gke params.Client with
      | .error err => (none, some (errors.Wrap err "failed to init patch helper"))
      | .ok helper =>
        (some
          { Logger := logger
            client := params.Client
            GKEClients := clients
            Cluster := params.Cluster
            GKECluster := params.GKECluster
            patchHelper := some helper },
         none)

/-! ### Methods of `GKEMachinePoolScope` -/

/-- The method `Region`: `return m.GKECluster.Spec.Region`. -/
def GKEMachinePoolScope.Region (m : GKEMachinePoolScope) : Option String :=
  match m.GKECluster with
  | none => none
  | some c => some c.Spec.Region

/-- The method `Name`: `return m.GKEMachinePool.Name`. -/
def GKEMachinePoolScope.Name (m : GKEMachinePoolScope) : Option String :=
  match m.GKEMachinePool with
  | none => none
  | some p => some p.Name

/-- The method `Namespace`: `return m.GKEMachinePool.Namespace`. -/
def GKEMachinePoolScope.Namespace (m : GKEMachinePoolScope) : Option String :=
  match m.GKEMachinePool with
  | none => none
  | some p => some p.Namespace

/-- The method `SetReady`: `m.GKEMachinePool.Status.Ready = true`. -/
def GKEMachinePoolScope.SetReady (m : GKEMachinePoolScope) : Option GKEMachinePoolScope :=
  match m.GKEMachinePool with
  | none => none
  | some p => some { m with GKEMachinePool := some { p with Status := { p.Status with Ready := true } } }

/-- The method `SetFailureMessage`:
`m.GKEMachinePool.Status.FailureMessage = pointer.StringPtr(v.Error())`. The argument is a Go
interface value: calling `Error()` on nil panics. -/
def GKEMachinePoolScope.SetFailureMessage (m : GKEMachinePoolScope) (v : Option GoError) :
    Option GKEMachinePoolScope :=
  match v with
  | none => none
  | some e =>
    match m.GKEMachinePool with
    | none => none
    | some p =>
      some { m with
        GKEMachinePool := some { p with Status := { p.Status with FailureMessage := some e.Error } } }

/-- The method `SetFailureReason`: `m.GKEMachinePool.Status.FailureReason = &v`. -/
def GKEMachinePoolScope.SetFailureReason (m : GKEMachinePoolScope) (v : MachineStatusError) :
    Option GKEMachinePoolScope :=
  match m.GKEMachinePool with
  | none => none
  | some p =>
    some { m with
      GKEMachinePool := some { p with Status := { p.Status with FailureReason := some v } } }

/-- The method `SetAnnotation`: a nil `Annotations` map is first replaced by an empty map, then
`m.GKEMachinePool.Annotations[key] = value`. -/
def GKEMachinePoolScope.SetAnnotation (m : GKEMachinePoolScope) (key value : String) :
    Option GKEMachinePoolScope :=
  match m.GKEMachinePool with
  | none => none
  | some p =>
    let annotations : StringMap :=
      match p.Annotations with
      | none => ∅
      | some a => a
    some { m with GKEMachinePool := some { p with Annotations := some (annotations.insert key value) } }

/-- The method `PatchObject`: `return m.patchHelper.Patch(context.TODO(), m.GKEMachinePool)`. -/
def GKEMachinePoolScope.PatchObject
    (store : Client → patch.ConditionalUpdate CapiGcp.GKEMachinePool → Option GoError)
    (m : GKEMachinePoolScope) : Option (patch.Outcome CapiGcp.GKEMachinePool) :=
  match m.patchHelper, m.GKEMachinePool with
  | some h, some p => h.Patch store p
  | _, _ => none

/-- The method `Close`: `return m.PatchObject()`. -/
def GKEMachinePoolScope.Close
    (store : Client → patch.ConditionalUpdate CapiGcp.GKEMachinePool → Option GoError)
    (m : GKEMachinePoolScope) : Option (patch.Outcome CapiGcp.GKEMachinePool) :=
  m.PatchObject store

/-- The value a Go read `p.Annotations[key]` finds: absent for a nil map and for a missing
key. -/
def annotation (p : GKEMachinePool) (key : String) : Option String :=
  match p.Annotations with
  | none => none
  | some a => a.lookup key

/-- The flag `status.ready` of the wrapped node pool resource; false when there is none. -/
def GKEMachinePoolScope.ready (m : GKEMachinePoolScope) : Bool :=
  match m.GKEMachinePool with
  | none => false
  | some p => p.Status.Ready

/-- One call of a method of `GKEMachinePoolScope` that takes the scope as its only state. -/
inductive Call where
  | SetReady
  | SetFailureReason (v : MachineStatusError)
  | SetFailureMessage (v : Option GoError)
  | SetAnnotation (key value : String)
  | Name
  | Namespace
  | Region
  deriving DecidableEq

/-- The scope after one call: a setter gives the scope it leaves behind, a getter hands the
scope on as it is once its read has completed. -/
def GKEMachinePoolScope.call (m : GKEMachinePoolScope) : Call → Option GKEMachinePoolScope
  | .SetReady => m.SetReady
  | .SetFailureReason v => m.SetFailureReason v
  | .SetFailureMessage v => m.SetFailureMessage v
  | Call.SetAnnotation key value => m.SetAnnotation key value
  | .Name => m.Name.map (fun _ => m)
  | .Namespace => m.Namespace.map (fun _ => m)
  | .Region => m.Region.map (fun _ => m)

/-- The scope after a finite sequence of calls, made one after the other. -/
def GKEMachinePoolScope.calls (m : GKEMachinePoolScope) : List Call → Option GKEMachinePoolScope
  | [] => some m
  | c :: cs =>
    match m.call c with
    | none => none
    | some m1 => m1.calls cs

/-! ### Methods of `GKEClusterScope` -/

/-- The method `Project`: `return s.GKECluster.Spec.Project`. -/
def GKEClusterScope.Project (s : GKEClusterScope) : Option String :=
  match s.GKECluster with
  | none => none
  | some c => some c.Spec.Project

/-- The method `Name`: `return s.GKECluster.Name`. -/
def GKEClusterScope.Name (s : GKEClusterScope) : Option String :=
  match s.GKECluster with
  | none => none
  | some c => some c.Name

/-- The method `Namespace`: `return s.GKECluster.Namespace`. -/
def GKEClusterScope.Namespace (s : GKEClusterScope) : Option String :=
  match s.GKECluster with
  | none => none
  | some c => some c.Namespace

/-- The method `Region`: `return s.GKECluster.Spec.Region`. -/
def GKEClusterScope.Region (s : GKEClusterScope) : Option String :=
  match s.GKECluster with
  | none => none
  | some c => some c.Spec.Region

/-- The method `PatchObject`: `return s.patchHelper.Patch(context.TODO(), s.GKECluster)`. -/
def GKEClusterScope.PatchObject
    (store : Client → patch.ConditionalUpdate CapiGcp.GKECluster → Option GoError)
    (s : GKEClusterScope) : Option (patch.Outcome CapiGcp.GKECluster) :=
  match s.patchHelper, s.GKECluster with
  | some h, some c => h.Patch store c
  | _, _ => none

/-- The method `Close`: `return s.PatchObject()`. -/
def GKEClusterScope.Close
    (store : Client → patch.ConditionalUpdate CapiGcp.GKECluster → Option GoError)
    (s : GKEClusterScope) : Option (patch.Outcome CapiGcp.GKECluster) :=
  s.PatchObject store

/-- A getter of `GKEClusterScope`. -/
inductive Getter where
  | Project
  | Name
  | Namespace
  | Region
  deriving DecidableEq

/-- The scope after a getter call: the scope as it was, once the read has completed. -/
def GKEClusterScope.call (s : GKEClusterScope) : Getter → Option GKEClusterScope
  | .Project => s.Project.map (fun _ => s)
  | .Name => s.Name.map (fun _ => s)
  | .Namespace => s.Namespace.map (fun _ => s)
  | .Region => s.Region.map (fun _ => s)

end scope

/-! ## `gkemachinepool.go` -/

namespace gkemachinepool

/-- The struct `GKEMachinePoolScopeParams` of `gkemachinepool.go`. It embeds `GCPClients`,
whose declaration is not among the sources and which the constructor does not read: the type
of that field is the parameter `κ`. -/
structure GKEMachinePoolScopeParams (κ : Type) where
  GCPClients : κ
  Client : Option Client
  Logger : Option Logger
  Cluster : Option Cluster
  MachinePool : Option MachinePool
  GKECluster : Option GKECluster
  GKEMachinePool : Option GKEMachinePool

/-- The struct `GKEMachinePoolScope` of `gkemachinepool.go`, field for field the struct of
`cloud/scope/gke_machine_pool.go`. -/
abbrev GKEMachinePoolScope := scope.GKEMachinePoolScope

/-- The function `NewGKEMachinePoolScope` of `gkemachinepool.go`. -/
def NewGKEMachinePoolScope {κ : Type} (env : Env) (params : GKEMachinePoolScopeParams κ) :
    Option GKEMachinePoolScope × Option GoError :=
  match params.Client with
  | none => (none, some (errors.New "client is required when creating a MachineScope"))
  | some _ =>
  match params.MachinePool with
  | none =>
    (none, some (errors.New "machine pool is required when creating a GKEMachinePoolScope"))
  | some _ =>
  match params.Cluster with
  | none =>
    (none, some (errors.New "cluster is required when creating a GKEMachinePoolScope"))
  | some _ =>
  match params.GKECluster with
  | none =>
    (none, some (errors.New "gcp cluster is required when creating a GKEMachinePoolScope"))
  | some _ =>
  match params.GKEMachinePool with
  | none =>
    (none, some (errors.New "gcp machine is required when creating a GKEMachinePoolScope"))
  | some pool =>
    let logger : Option Logger :=
      match params.Logger with
      | none => some env.klogrNew
      | some l => some l
    match patch.NewHelper env pool params.Client with
    | .error err => (none, some (errors.Wrap err "failed to init patch helper"))
    | .ok helper =>
      (some
        { client := params.Client
          Cluster := params.Cluster
          MachinePool := params.MachinePool
          GKECluster := params.GKECluster
          GKEMachinePool := params.GKEMachinePool
          Logger := logger
          patchHelper := some helper },
       none)

end gkemachinepool

/-! ## `main.go` -/

namespace cmd

/-- What `main` can register with the manager: a reconciler through `SetupWithManager`, a
webhook through `SetupWebhookWithManager`. -/
inductive Component where
  | GCPMachineReconciler
  | GCPClusterReconciler
  | GKEMachinePoolReconciler
  | GKEClusterReconciler
  | GCPMachineTemplateWebhook
  | GCPMachineWebhook
  deriving DecidableEq, Repr

/-- The components that are reconcilers. -/
def Component.isReconciler : Component → Bool
  | .GCPMachineReconciler => true
  | .GCPClusterReconciler => true
  | .GKEMachinePoolReconciler => true
  | .GKEClusterReconciler => true
  | .GCPMachineTemplateWebhook => false
  | .GCPMachineWebhook => false

/-- The components that are webhooks. -/
def Component.isWebhook : Component → Bool
  | .GCPMachineTemplateWebhook => true
  | .GCPMachineWebhook => true
  | .GCPMachineReconciler => false
  | .GCPClusterReconciler => false
  | .GKEMachinePoolReconciler => false
  | .GKEClusterReconciler => false

/-- The package-level flag variables of `main.go` that are not durations. -/
structure Flags where
  enableLeaderElection : Bool
  metricsAddr : String
  leaderElectionNamespace : String
  watchNamespace : String
  profilerAddress : String
  healthAddr : String
  gcpClusterConcurrency : Int
  gcpMachineConcurrency : Int
  webhookPort : Int
  deriving DecidableEq

/-- The defaults `initFlags` gives the flag variables. -/
def initFlags : Flags :=
  { metricsAddr := ":8080"
    enableLeaderElection := false
    watchNamespace := ""
    leaderElectionNamespace := ""
    profilerAddress := ""
    gcpClusterConcurrency := 10
    gcpMachineConcurrency := 10
    webhookPort := 0
    healthAddr := ":9440" }

/-- The outcomes of the manager calls `main` makes: each is the error returned, `none` for
success. -/
structure MainEnv where
  /-- The error of `ctrl.NewManager`. -/
  newManagerErr : Option GoError
  /-- The error of `SetupWithManager` or `SetupWebhookWithManager` for a component. -/
  setupErr : Component → Option GoError
  /-- The error of `mgr.AddReadyzCheck`. -/
  addReadyzCheckErr : Option GoError
  /-- The error of `mgr.AddHealthzCheck`. -/
  addHealthzCheckErr : Option GoError
  /-- The error of `mgr.Start`. -/
  startErr : Option GoError

/-- What a run of `main` did: the components whose set-up call returned without error, in
order; whether `mgr.Start` was called; the code of `os.Exit`, `none` when `main` returns. -/
structure Run where
  installed : List Component
  started : Bool
  exitCode : Option Nat
  deriving DecidableEq, Repr

/-- The function `main` of `main.go` from `ctrl.NewManager` on, for the flag values left by
`pflag.Parse`. Every `if err != nil` block ends in `os.Exit(1)`. -/
def main (env : MainEnv) (flags : Flags) : Run :=
  match env.newManagerErr with
  | some _ => { installed := [], started := false, exitCode := some 1 }
  | none =>
    let registered : List Component × Bool :=
      if flags.webhookPort = 0 then
        if false then
          match env.setupErr .GCPMachineReconciler with
          | some _ => ([], false)
          | none =>
            match env.setupErr .GCPClusterReconciler with
            | some _ => ([.GCPMachineReconciler], false)
            | none => ([.GCPMachineReconciler, .GCPClusterReconciler], true)
        else
          match env.setupErr .GKEMachinePoolReconciler with
          | some _ => ([], false)
          | none =>
            match env.setupErr .GKEClusterReconciler with
            | some _ => ([.GKEMachinePoolReconciler], false)
            | none => ([.GKEMachinePoolReconciler, .GKEClusterReconciler], true)
      else
        match env.setupErr .GCPMachineTemplateWebhook with
        | some _ => ([], false)
        | none =>
          match env.setupErr .GCPMachineWebhook with
          | some _ => ([.GCPMachineTemplateWebhook], false)
          | none => ([.GCPMachineTemplateWebhook, .GCPMachineWebhook], true)
    match registered with
    | (installed, false) => { installed := installed, started := false, exitCode := some 1 }
    | (installed, true) =>
      match env.addReadyzCheckErr with
      | some _ => { installed := installed, started := false, exitCode := some 1 }
      | none =>
        match env.addHealthzCheckErr with
        | some _ => { installed := installed, started := false, exitCode := some 1 }
        | none =>
          match env.startErr with
          | some _ => { installed := installed, started := true, exitCode := some 1 }
          | none => { installed := installed, started := true, exitCode := none }

/-- The environment in which every manager call succeeds. -/
def allSucceed : MainEnv :=
  { newManagerErr := none
    setupErr := fun _ => none
    addReadyzCheckErr := none
    addHealthzCheckErr := none
    startErr := none }

end cmd

/-! ## Sample objects

The cluster resource `demo` with `resourceVersion = "1"` and a node pool of it, used to
evaluate the definitions. -/

namespace sample

/-- The parent cluster reference. -/
def cluster : Cluster :=
  { Name := "demo", Namespace := "default", ResourceVersion := "1", Annotations := none }

/-- The machine pool descriptor. -/
def machinePool : MachinePool :=
  { Name := "pool-a", Namespace := "default", ResourceVersion := "1", Annotations := none }

/-- The cluster resource. -/
def gkeCluster : GKECluster :=
  { Name := "demo", Namespace := "default", ResourceVersion := "1", Annotations := none
    Spec := { Project := "proj", Region := "us-west1" } }

/-- The node pool resource: not ready, no failure recorded, a nil annotations map. -/
def gkeMachinePool : GKEMachinePool :=
  { Name := "pool-a", Namespace := "default", ResourceVersion := "1", Annotations := none
    Spec := { raw := "" }
    Status := { Ready := false, FailureReason := none, FailureMessage := none } }

/-- An environment in which every outside call succeeds. -/
def env : Env :=
  { klogrNew := { handle := 0 }
    containerNewService := .ok { handle := 1 }
    patchNewHelperErr := none }

/-- An environment in which `container.NewService` finds no credentials. -/
def envNoCredentials : Env :=
  { klogrNew := { handle := 0 }
    containerNewService := .error { msg := "could not find default credentials" }
    patchNewHelperErr := none }

/-- Parameters of a cluster scope with every reference present. -/
def clusterParams : scope.GKEClusterScopeParams :=
  { GKEClients := { Container := none }
    Client := some { handle := 7 }
    Logger := none
    Cluster := some cluster
    GKECluster := some gkeCluster }

/-- Parameters of a cluster scope without a store client. -/
def clusterParamsNoClient : scope.GKEClusterScopeParams :=
  { GKEClients := { Container := none }
    Client := none
    Logger := none
    Cluster := some cluster
    GKECluster := some gkeCluster }

/-- Parameters of a machine pool scope with every reference present. -/
def poolParams : scope.GKEMachinePoolScopeParams :=
  { GKEClients := { Container := none }
    Client := some { handle := 7 }
    Logger := none
    Cluster := some cluster
    MachinePool := some machinePool
    GKECluster := some gkeCluster
    GKEMachinePool := some gkeMachinePool }

/-- Parameters of a machine pool scope without the parent cluster reference. -/
def poolParamsNoCluster : scope.GKEMachinePoolScopeParams :=
  { poolParams with Cluster := none }

/-- The machine pool scope that `NewGKEMachinePoolScope env poolParams` returns. -/
def poolScope : scope.GKEMachinePoolScope :=
  { Logger := some { handle := 0 }
    client := some { handle := 7 }
    patchHelper := some { client := some { handle := 7 }, before := gkeMachinePool }
    Cluster := some cluster
    MachinePool := some machinePool
    GKECluster := some gkeCluster
    GKEMachinePool := some gkeMachinePool }

/-- The scope `poolScope` after `SetReady`. -/
def readyPoolScope : scope.GKEMachinePoolScope :=
  { poolScope with
    GKEMachinePool := some
      { gkeMachinePool with Status := { gkeMachinePool.Status with Ready := true } } }

/-- The cluster scope that `NewGKEClusterScope env clusterParams` returns. -/
def clusterScope : scope.GKEClusterScope :=
  { Logger := some { handle := 0 }
    client := some { handle := 7 }
    patchHelper := some { client := some { handle := 7 }, before := gkeCluster }
    GKEClients := { Container := some { handle := 1 } }
    Cluster := some cluster
    GKECluster := some gkeCluster }

end sample

/-! ## Construction of scopes -/

/-- C1: whenever at least one of `Client`, `MachinePool`, `Cluster`, `GKECluster` or
`GKEMachinePool` is nil, `NewGKEMachinePoolScope` returns a nil scope together with an error,
whatever the outside calls would answer. This holds for the constructor of
`cloud/scope/gke_machine_pool.go` and for the one of `gkemachinepool.go` on the same
references. -/
theorem NewGKEMachinePoolScope_nil_input (env : Env) (params : scope.GKEMachinePoolScopeParams)
    (h : params.Client = none ∨ params.MachinePool = none ∨ params.Cluster = none ∨
      params.GKECluster = none ∨ params.GKEMachinePool = none) :
    (∃ err, scope.NewGKEMachinePoolScope env params = (none, some err)) ∧
    (∀ (κ : Type) (clients : κ), ∃ err,
      gkemachinepool.NewGKEMachinePoolScope env
        { GCPClients := clients
          Client := params.Client
          Logger := params.Logger
          Cluster := params.Cluster
          MachinePool := params.MachinePool
          GKECluster := params.GKECluster
          GKEMachinePool := params.GKEMachinePool } = (none, some err)) := by
  obtain ⟨gc, c, l, cl, mp, g, p⟩ := params
  simp only at h
  cases c <;> cases mp <;> cases cl <;> cases g <;> cases p <;>
    simp_all [scope.NewGKEMachinePoolScope, gkemachinepool.NewGKEMachinePoolScope]

/-- C1 at the sample parameters without the parent cluster reference. -/
theorem NewGKEMachinePoolScope_nil_input_witness :
    sample.poolParamsNoCluster.Cluster = none ∧
    scope.NewGKEMachinePoolScope sample.env sample.poolParamsNoCluster =
      (none, some { msg := "cluster is required when creating a MachineScope" }) ∧
    (∃ err, scope.NewGKEMachinePoolScope sample.env sample.poolParamsNoCluster =
      (none, some err)) :=
  ⟨rfl, rfl,
    (NewGKEMachinePoolScope_nil_input sample.env sample.poolParamsNoCluster
      (Or.inr (Or.inr (Or.inl rfl)))).1⟩

/-- The two nil tests `NewGKEClusterScope` does make: a nil `Cluster` or a nil `GKECluster`
gives a nil scope together with an error. -/
theorem NewGKEClusterScope_nil_cluster (env : Env) (params : scope.GKEClusterScopeParams)
    (h : params.Cluster = none ∨ params.GKECluster = none) :
    ∃ err, scope.NewGKEClusterScope env params = (none, some err) := by
  obtain ⟨gc, c, l, cl, g⟩ := params
  simp only at h
  cases cl <;> cases g <;> simp_all [scope.NewGKEClusterScope]

/-- C2 (the code at the failing input): with a nil `Client` and both other references
present, `NewGKEClusterScope` returns a scope and no error once the outside calls succeed;
the scope it returns holds the nil client, in its own field and in its patch helper. -/
theorem NewGKEClusterScope_nil_client_accepted :
    scope.NewGKEClusterScope sample.env sample.clusterParamsNoClient =
      (some
        { Logger := some { handle := 0 }
          client := none
          patchHelper := some { client := none, before := sample.gkeCluster }
          GKEClients := { Container := some { handle := 1 } }
          Cluster := some sample.cluster
          GKECluster := some sample.gkeCluster },
       none) :=
  rfl

/-- C3 (counterexample): every required reference is present, yet `NewGKEClusterScope`
returns no scope and an error, because `container.NewService` failed. -/
theorem NewGKEClusterScope_fails_with_all_inputs :
    sample.clusterParams.Client.isSome = true ∧
    sample.clusterParams.Cluster.isSome = true ∧
    sample.clusterParams.GKECluster.isSome = true ∧
    scope.NewGKEClusterScope sample.envNoCredentials sample.clusterParams =
      (none,
       some { msg := "failed to create gke compute client: could not find default credentials" }) :=
  ⟨rfl, rfl, rfl, by decide⟩

/-- C3 (amended): when every required reference is present, the outcome of construction is
decided by the outside calls made during construction alone. `NewGKEClusterScope` returns a
scope and no error exactly when `container.NewService` and `patch.NewHelper` both succeed,
and a nil scope with an error otherwise; `NewGKEMachinePoolScope` returns a scope and no error
exactly when `patch.NewHelper` succeeds, and a nil scope with an error otherwise. -/
theorem construction_outcome (env : Env) (pc : scope.GKEClusterScopeParams)
    (pm : scope.GKEMachinePoolScopeParams)
    (hc : pc.Client ≠ none ∧ pc.Cluster ≠ none ∧ pc.GKECluster ≠ none)
    (hm : pm.Client ≠ none ∧ pm.MachinePool ≠ none ∧ pm.Cluster ≠ none ∧
      pm.GKECluster ≠ none ∧ pm.GKEMachinePool ≠ none) :
    ((∃ s, scope.NewGKEClusterScope env pc = (some s, none)) ↔
      ((∃ svc, env.containerNewService = .ok svc) ∧ env.patchNewHelperErr = none)) ∧
    ((∃ err, scope.NewGKEClusterScope env pc = (none, some err)) ↔
      ¬ ((∃ svc, env.containerNewService = .ok svc) ∧ env.patchNewHelperErr = none)) ∧
    ((∃ m, scope.NewGKEMachinePoolScope env pm = (some m, none)) ↔
      env.patchNewHelperErr = none) ∧
    ((∃ err, scope.NewGKEMachinePoolScope env pm = (none, some err)) ↔
      env.patchNewHelperErr ≠ none) := by
  obtain ⟨gc, c, l, cl, g⟩ := pc
  obtain ⟨gc2, c2, l2, cl2, mp2, g2, p2⟩ := pm
  obtain ⟨lg, svc, herr⟩ := env
  simp only at hc hm
  obtain ⟨hc1, hc2, hc3⟩ := hc
  obtain ⟨hm1, hm2, hm3, hm4, hm5⟩ := hm
  cases c <;> cases cl <;> cases g <;> cases c2 <;> cases mp2 <;> cases cl2 <;> cases g2 <;>
    cases p2 <;> try contradiction
  cases svc <;> cases herr <;>
    simp [scope.NewGKEClusterScope, scope.NewGKEMachinePoolScope, patch.NewHelper]

/-- C3 (amended) at the sample parameters: with every outside call succeeding both
constructors return a scope. -/
theorem construction_outcome_witness :
    (∃ s, scope.NewGKEClusterScope sample.env sample.clusterParams = (some s, none)) ∧
    (∃ m, scope.NewGKEMachinePoolScope sample.env sample.poolParams = (some m, none)) :=
  have h := construction_outcome sample.env sample.clusterParams sample.poolParams
    ⟨by decide, by decide, by decide⟩ ⟨by decide, by decide, by decide, by decide, by decide⟩
  ⟨h.1.2 ⟨⟨{ handle := 1 }, rfl⟩, rfl⟩, h.2.2.1.2 rfl⟩

/-! ## Setters of the machine pool scope -/

/-- C4: on a scope that wraps a node pool resource, whatever `status.ready` was before,
`SetReady` completes and leaves a resource with `status.ready = true`; a second `SetReady`
gives back exactly the scope the first one left. -/
theorem SetReady_sets_ready (m : scope.GKEMachinePoolScope) (p : GKEMachinePool)
    (h : m.GKEMachinePool = some p) :
    ∃ m1 p1, m.SetReady = some m1 ∧ m1.GKEMachinePool = some p1 ∧
      p1.Status.Ready = true ∧ m1.SetReady = some m1 := by
  obtain ⟨lg, c, ph, cl, mp, g, q⟩ := m
  simp only at h
  subst h
  exact ⟨_, _, rfl, rfl, rfl, rfl⟩

/-- C4 at the sample scope, whose node pool is not ready before the call. -/
theorem SetReady_sets_ready_witness :
    sample.gkeMachinePool.Status.Ready = false ∧
    ∃ m1 p1, sample.poolScope.SetReady = some m1 ∧ m1.GKEMachinePool = some p1 ∧
      p1.Status.Ready = true ∧ m1.SetReady = some m1 :=
  ⟨rfl, SetReady_sets_ready sample.poolScope sample.gkeMachinePool rfl⟩

/-- One call that completes keeps a true `status.ready` true. -/
theorem call_keeps_ready (m m1 : scope.GKEMachinePoolScope) (c : scope.Call)
    (h : m.ready = true) (hc : m.call c = some m1) : m1.ready = true := by
  obtain ⟨lg, cl, ph, cc, mp, g, q⟩ := m
  cases q with
  | none => simp [scope.GKEMachinePoolScope.ready] at h
  | some p =>
    simp only [scope.GKEMachinePoolScope.ready] at h
    cases c with
    | SetReady =>
      simp only [scope.GKEMachinePoolScope.call, scope.GKEMachinePoolScope.SetReady,
        Option.some.injEq] at hc
      subst hc
      rfl
    | SetFailureReason v =>
      simp only [scope.GKEMachinePoolScope.call, scope.GKEMachinePoolScope.SetFailureReason,
        Option.some.injEq] at hc
      subst hc
      exact h
    | SetFailureMessage v =>
      cases v with
      | none => simp [scope.GKEMachinePoolScope.call, scope.GKEMachinePoolScope.SetFailureMessage] at hc
      | some e =>
        simp only [scope.GKEMachinePoolScope.call, scope.GKEMachinePoolScope.SetFailureMessage,
          Option.some.injEq] at hc
        subst hc
        exact h
    | SetAnnotation key value =>
      simp only [scope.GKEMachinePoolScope.call, scope.GKEMachinePoolScope.SetAnnotation,
        Option.some.injEq] at hc
      subst hc
      exact h
    | Name =>
      simp only [scope.GKEMachinePoolScope.call, scope.GKEMachinePoolScope.Name,
        Option.map_some', Option.some.injEq] at hc
      subst hc
      exact h
    | Namespace =>
      simp only [scope.GKEMachinePoolScope.call, scope.GKEMachinePoolScope.Namespace,
        Option.map_some', Option.some.injEq] at hc
      subst hc
      exact h
    | Region =>
      cases g with
      | none => simp [scope.GKEMachinePoolScope.call, scope.GKEMachinePoolScope.Region] at hc
      | some gke =>
        simp only [scope.GKEMachinePoolScope.call, scope.GKEMachinePoolScope.Region,
          Option.map_some', Option.some.injEq] at hc
        subst hc
        exact h

/-- One call that completes leaves the reference to the parent `GKECluster` as it was. -/
theorem call_keeps_GKECluster (m m1 : scope.GKEMachinePoolScope) (c : scope.Call)
    (hc : m.call c = some m1) : m1.GKECluster = m.GKECluster := by
  obtain ⟨lg, cl, ph, cc, mp, g, q⟩ := m
  cases c with
  | SetFailureMessage v =>
    cases v with
    | none =>
      simp [scope.GKEMachinePoolScope.call, scope.GKEMachinePoolScope.SetFailureMessage] at hc
    | some e =>
      cases q with
      | none =>
        simp [scope.GKEMachinePoolScope.call, scope.GKEMachinePoolScope.SetFailureMessage] at hc
      | some p =>
        simp only [scope.GKEMachinePoolScope.call, scope.GKEMachinePoolScope.SetFailureMessage,
          Option.some.injEq] at hc
        subst hc
        rfl
  | _ =>
    cases q <;> cases g <;>
      simp [scope.GKEMachinePoolScope.call, scope.GKEMachinePoolScope.SetReady,
        scope.GKEMachinePoolScope.SetFailureReason, scope.GKEMachinePoolScope.SetAnnotation,
        scope.GKEMachinePoolScope.Name, scope.GKEMachinePoolScope.Namespace,
        scope.GKEMachinePoolScope.Region] at hc <;>
      (subst hc; rfl)

/-- A call completes on a scope that wraps a node pool resource and a parent `GKECluster`,
unless it is `SetFailureMessage` with a nil error. -/
theorem call_completes (m : scope.GKEMachinePoolScope) (c : scope.Call)
    (hp : m.GKEMachinePool ≠ none) (hg : m.GKECluster ≠ none)
    (hv : c ≠ scope.Call.SetFailureMessage none) : ∃ m1, m.call c = some m1 := by
  obtain ⟨lg, cl, ph, cc, mp, g, q⟩ := m
  cases q with
  | none => exact absurd rfl hp
  | some p =>
    cases g with
    | none => exact absurd rfl hg
    | some gke =>
      cases c with
      | SetFailureMessage v =>
        cases v with
        | none => exact absurd rfl hv
        | some e => exact ⟨_, rfl⟩
      | _ => exact ⟨_, rfl⟩

/-- C5: the scope never resets the ready flag. From a scope whose wrapped resource has
`status.ready = true`, every sequence of calls of `SetReady`, `SetFailureReason`,
`SetFailureMessage`, `SetAnnotation`, `Name`, `Namespace` and `Region` that runs to its end
leaves `status.ready = true`; and the sequence does run to its end when the scope holds its
parent `GKECluster` and no `SetFailureMessage` is given a nil error. As a sequence that stops
in a panic has run its calls before the panic to their end, the flag is true at that point
too. -/
theorem ready_never_reset (m : scope.GKEMachinePoolScope) (cs : List scope.Call)
    (h : m.ready = true) :
    (∀ m1, m.calls cs = some m1 → m1.ready = true) ∧
    (m.GKECluster ≠ none → (∀ c ∈ cs, c ≠ scope.Call.SetFailureMessage none) →
      ∃ m1, m.calls cs = some m1 ∧ m1.ready = true) := by
  induction cs generalizing m with
  | nil =>
    refine ⟨?_, fun _ _ => ⟨m, rfl, h⟩⟩
    intro m1 h1
    simp only [scope.GKEMachinePoolScope.calls, Option.some.injEq] at h1
    subst h1
    exact h
  | cons c cs ih =>
    refine ⟨?_, ?_⟩
    · intro m1 h1
      simp only [scope.GKEMachinePoolScope.calls] at h1
      cases hc : m.call c with
      | none => simp [hc] at h1
      | some m2 =>
        rw [hc] at h1
        exact (ih m2 (call_keeps_ready m m2 c h hc)).1 m1 h1
    · intro hg hv
      have hp : m.GKEMachinePool ≠ none := by
        intro hn
        simp [scope.GKEMachinePoolScope.ready, hn] at h
      obtain ⟨m2, hc⟩ := call_completes m c hp hg (hv c (List.mem_cons_self c cs))
      have hg2 : m2.GKECluster ≠ none := by
        rw [call_keeps_GKECluster m m2 c hc]
        exact hg
      obtain ⟨m1, h1, hr⟩ := (ih m2 (call_keeps_ready m m2 c h hc)).2 hg2
        (fun d hd => hv d (List.mem_cons_of_mem c hd))
      refine ⟨m1, ?_, hr⟩
      simp only [scope.GKEMachinePoolScope.calls, hc]
      exact h1

/-- C5 at the sample scope made ready: a sequence that uses every operation leaves it
ready. -/
theorem ready_never_reset_witness :
    ∃ m0, sample.poolScope.SetReady = some m0 ∧ m0.ready = true ∧
      ∃ m1, m0.calls
        [.SetFailureReason "CreateError", .SetFailureMessage (some { msg := "quota" }),
          scope.Call.SetAnnotation "owner" "capg", .Name, .Namespace, .Region, .SetReady] = some m1 ∧
        m1.ready = true :=
  ⟨sample.readyPoolScope, rfl, rfl,
    (ready_never_reset sample.readyPoolScope
      [.SetFailureReason "CreateError", .SetFailureMessage (some { msg := "quota" }),
        scope.Call.SetAnnotation "owner" "capg", .Name, .Namespace, .Region, .SetReady] rfl).2
      (by decide) (by decide)⟩

/-- C6: on a scope that wraps a node pool resource, `SetAnnotation key value` completes and
leaves a resource whose annotations map `key` to `value`, while every other key reads exactly
as before (its value, or absent). When the annotations map was nil before the call, `key` is
afterwards the only key present. -/
theorem SetAnnotation_sets_key (m : scope.GKEMachinePoolScope) (p : GKEMachinePool)
    (key value : String) (h : m.GKEMachinePool = some p) :
    ∃ m1 p1, m.SetAnnotation key value = some m1 ∧ m1.GKEMachinePool = some p1 ∧
      scope.annotation p1 key = some value ∧
      (∀ k, k ≠ key → scope.annotation p1 k = scope.annotation p k) ∧
      (p.Annotations = none → ∀ k, k ≠ key → scope.annotation p1 k = none) := by
  obtain ⟨lg, c, ph, cl, mp, g, q⟩ := m
  simp only at h
  subst h
  obtain ⟨⟨n, ns, rv, a⟩, sp, st⟩ := p
  cases a with
  | none =>
    refine ⟨_, _, rfl, rfl, ?_, ?_, ?_⟩
    · simp [scope.annotation]
    · intro k hk
      simp [scope.annotation, Finmap.lookup_insert_of_ne, hk]
    · intro _ k hk
      simp [scope.annotation, Finmap.lookup_insert_of_ne, hk]
  | some a =>
    refine ⟨_, _, rfl, rfl, ?_, ?_, ?_⟩
    · simp [scope.annotation]
    · intro k hk
      simp [scope.annotation, Finmap.lookup_insert_of_ne, hk]
    · intro hn
      simp at hn

/-- C6 at the sample scope, whose node pool has a nil annotations map. -/
theorem SetAnnotation_sets_key_witness :
    sample.gkeMachinePool.Annotations = none ∧
    ∃ m1 p1, sample.poolScope.SetAnnotation "owner" "capg" = some m1 ∧
      m1.GKEMachinePool = some p1 ∧
      scope.annotation p1 "owner" = some "capg" ∧
      (∀ k, k ≠ "owner" → scope.annotation p1 k = scope.annotation sample.gkeMachinePool k) ∧
      (sample.gkeMachinePool.Annotations = none →
        ∀ k, k ≠ "owner" → scope.annotation p1 k = none) :=
  ⟨rfl, SetAnnotation_sets_key sample.poolScope sample.gkeMachinePool "owner" "capg" rfl⟩

/-- C7: on a scope that wraps a node pool resource, whatever the two failure fields held
before, `SetFailureMessage` with a non-nil error `e` completes and leaves
`status.failureMessage` present and equal to the message text of `e`, and `SetFailureReason r`
completes and leaves `status.failureReason` present and equal to `r`. -/
theorem SetFailure_sets_fields (m : scope.GKEMachinePoolScope) (p : GKEMachinePool)
    (e : GoError) (r : MachineStatusError) (h : m.GKEMachinePool = some p) :
    (∃ m1 p1, m.SetFailureMessage (some e) = some m1 ∧ m1.GKEMachinePool = some p1 ∧
      p1.Status.FailureMessage = some e.Error) ∧
    (∃ m2 p2, m.SetFailureReason r = some m2 ∧ m2.GKEMachinePool = some p2 ∧
      p2.Status.FailureReason = some r) := by
  obtain ⟨lg, c, ph, cl, mp, g, q⟩ := m
  simp only at h
  subst h
  exact ⟨⟨_, _, rfl, rfl, rfl⟩, ⟨_, _, rfl, rfl, rfl⟩⟩

/-- C7 at the sample scope, whose node pool has both failure fields absent. -/
theorem SetFailure_sets_fields_witness :
    (∃ m1 p1, sample.poolScope.SetFailureMessage (some { msg := "quota exceeded" }) = some m1 ∧
      m1.GKEMachinePool = some p1 ∧ p1.Status.FailureMessage = some "quota exceeded") ∧
    (∃ m2 p2, sample.poolScope.SetFailureReason "CreateError" = some m2 ∧
      m2.GKEMachinePool = some p2 ∧ p2.Status.FailureReason = some "CreateError") :=
  SetFailure_sets_fields sample.poolScope sample.gkeMachinePool { msg := "quota exceeded" }
    "CreateError" rfl

/-! ## Scopes that were constructed -/

/-- A machine pool scope that `NewGKEMachinePoolScope` returned holds the references of its
parameters, all of them present, and a patch helper whose baseline is the node pool resource
of the parameters. -/
theorem NewGKEMachinePoolScope_built (env : Env) (pm : scope.GKEMachinePoolScopeParams)
    (m : scope.GKEMachinePoolScope)
    (h : scope.NewGKEMachinePoolScope env pm = (some m, none)) :
    ∃ pool gke, pm.GKEMachinePool = some pool ∧ pm.GKECluster = some gke ∧
      m.GKEMachinePool = some pool ∧ m.GKECluster = some gke ∧
      m.Cluster = pm.Cluster ∧ m.MachinePool = pm.MachinePool ∧ m.client = pm.Client ∧
      m.patchHelper = some { client := pm.Client, before := pool } := by
  obtain ⟨gc, c, l, cl, mp, g, p⟩ := pm
  obtain ⟨lg, svc, herr⟩ := env
  cases c <;> cases mp <;> cases cl <;> cases g <;> cases p <;> cases herr <;>
    simp [scope.NewGKEMachinePoolScope, patch.NewHelper] at h
  subst h
  exact ⟨_, _, rfl, rfl, rfl, rfl, rfl, rfl, rfl, rfl⟩

/-- A cluster scope that `NewGKEClusterScope` returned holds the references of its parameters
and a patch helper whose baseline is the cluster resource of the parameters. -/
theorem NewGKEClusterScope_built (env : Env) (pc : scope.GKEClusterScopeParams)
    (s : scope.GKEClusterScope)
    (h : scope.NewGKEClusterScope env pc = (some s, none)) :
    ∃ gke, pc.GKECluster = some gke ∧ s.GKECluster = some gke ∧
      s.Cluster = pc.Cluster ∧ s.client = pc.Client ∧
      s.patchHelper = some { client := pc.Client, before := gke } := by
  obtain ⟨gc, c, l, cl, g⟩ := pc
  obtain ⟨lg, svc, herr⟩ := env
  cases cl <;> cases g <;> cases svc <;> cases herr <;>
    simp [scope.NewGKEClusterScope, patch.NewHelper] at h
  subst h
  exact ⟨_, rfl, rfl, rfl, rfl, rfl⟩

/-- C8: on every scope that a constructor returned, in whatever environment, the getters
complete, read the objects given at construction, and leave the scope as it was. For a
machine pool scope `Name` and `Namespace` are those of the `GKEMachinePool` of the parameters
and `Region` is `spec.region` of the parent `GKECluster`; for a cluster scope `Name`,
`Namespace`, `Project` and `Region` are the name, namespace, `spec.project` and `spec.region`
of the `GKECluster` of the parameters. -/
theorem getters_read_wrapped (envM envC : Env) (pm : scope.GKEMachinePoolScopeParams)
    (pc : scope.GKEClusterScopeParams) (m : scope.GKEMachinePoolScope)
    (s : scope.GKEClusterScope)
    (hm : scope.NewGKEMachinePoolScope envM pm = (some m, none))
    (hs : scope.NewGKEClusterScope envC pc = (some s, none)) :
    (∃ pool parent, pm.GKEMachinePool = some pool ∧ pm.GKECluster = some parent ∧
      m.Name = some pool.Name ∧ m.Namespace = some pool.Namespace ∧
      m.Region = some parent.Spec.Region ∧
      m.call .Name = some m ∧ m.call .Namespace = some m ∧ m.call .Region = some m) ∧
    (∃ gke, pc.GKECluster = some gke ∧
      s.Name = some gke.Name ∧ s.Namespace = some gke.Namespace ∧
      s.Project = some gke.Spec.Project ∧ s.Region = some gke.Spec.Region ∧
      ∀ g : scope.Getter, s.call g = some s) := by
  obtain ⟨pool, parent, hp1, hp2, hp3, hp4, -⟩ := NewGKEMachinePoolScope_built envM pm m hm
  obtain ⟨gke, hg1, hg2, -⟩ := NewGKEClusterScope_built envC pc s hs
  refine ⟨⟨pool, parent, hp1, hp2, ?_, ?_, ?_, ?_, ?_, ?_⟩, ⟨gke, hg1, ?_, ?_, ?_, ?_, ?_⟩⟩
  · simp [scope.GKEMachinePoolScope.Name, hp3]
  · simp [scope.GKEMachinePoolScope.Namespace, hp3]
  · simp [scope.GKEMachinePoolScope.Region, hp4]
  · simp [scope.GKEMachinePoolScope.call, scope.GKEMachinePoolScope.Name, hp3]
  · simp [scope.GKEMachinePoolScope.call, scope.GKEMachinePoolScope.Namespace, hp3]
  · simp [scope.GKEMachinePoolScope.call, scope.GKEMachinePoolScope.Region, hp4]
  · simp [scope.GKEClusterScope.Name, hg2]
  · simp [scope.GKEClusterScope.Namespace, hg2]
  · simp [scope.GKEClusterScope.Project, hg2]
  · simp [scope.GKEClusterScope.Region, hg2]
  · intro g
    cases g <;>
      simp [scope.GKEClusterScope.call, scope.GKEClusterScope.Name,
        scope.GKEClusterScope.Namespace, scope.GKEClusterScope.Project,
        scope.GKEClusterScope.Region, hg2]

/-- C8 at the sample parameters: the two constructors return the sample scopes, and the
getters read `pool-a`, `default`, `us-west1`, `demo` and `proj`. -/
theorem getters_read_wrapped_witness :
    sample.poolScope.Name = some "pool-a" ∧ sample.poolScope.Namespace = some "default" ∧
    sample.poolScope.Region = some "us-west1" ∧
    sample.clusterScope.Name = some "demo" ∧ sample.clusterScope.Project = some "proj" ∧
    ((∃ pool parent, sample.poolParams.GKEMachinePool = some pool ∧
        sample.poolParams.GKECluster = some parent ∧
        sample.poolScope.Name = some pool.Name ∧
        sample.poolScope.Namespace = some pool.Namespace ∧
        sample.poolScope.Region = some parent.Spec.Region ∧
        sample.poolScope.call .Name = some sample.poolScope ∧
        sample.poolScope.call .Namespace = some sample.poolScope ∧
        sample.poolScope.call .Region = some sample.poolScope) ∧
      (∃ gke, sample.clusterParams.GKECluster = some gke ∧
        sample.clusterScope.Name = some gke.Name ∧
        sample.clusterScope.Namespace = some gke.Namespace ∧
        sample.clusterScope.Project = some gke.Spec.Project ∧
        sample.clusterScope.Region = some gke.Spec.Region ∧
        ∀ g : scope.Getter, sample.clusterScope.call g = some sample.clusterScope)) :=
  ⟨rfl, rfl, rfl, rfl, rfl,
    getters_read_wrapped sample.env sample.env sample.poolParams sample.clusterParams
      sample.poolScope sample.clusterScope rfl rfl⟩

/-! ## Commit -/

/-- C9: commit idempotence. Take a scope that a constructor returned, in whatever
environment, and any scope reached from it whose patch helper and wrapped object are still
those of construction (the object was not mutated). Then `Close` completes, returns no error
and sends no conditional update to the resource store, whatever the store would answer. This
holds for `GKEMachinePoolScope` and for `GKEClusterScope`. -/
theorem Close_unmutated_no_write (envM envC : Env) (pm : scope.GKEMachinePoolScopeParams)
    (pc : scope.GKEClusterScopeParams) (m m1 : scope.GKEMachinePoolScope)
    (s s1 : scope.GKEClusterScope)
    (storeM : Client → patch.ConditionalUpdate GKEMachinePool → Option GoError)
    (storeC : Client → patch.ConditionalUpdate GKECluster → Option GoError)
    (hm : scope.NewGKEMachinePoolScope envM pm = (some m, none))
    (hs : scope.NewGKEClusterScope envC pc = (some s, none))
    (hm1 : m1.patchHelper = m.patchHelper ∧ m1.GKEMachinePool = m.GKEMachinePool)
    (hs1 : s1.patchHelper = s.patchHelper ∧ s1.GKECluster = s.GKECluster) :
    m1.Close storeM = some { err := none, writes := [] } ∧
    s1.Close storeC = some { err := none, writes := [] } := by
  obtain ⟨pool, parent, -, -, hp3, -, -, -, -, hp8⟩ := NewGKEMachinePoolScope_built envM pm m hm
  obtain ⟨gke, -, hg2, -, -, hg5⟩ := NewGKEClusterScope_built envC pc s hs
  constructor
  · simp [scope.GKEMachinePoolScope.Close, scope.GKEMachinePoolScope.PatchObject, hm1.1,
      hm1.2, hp3, hp8, patch.Helper.Patch]
  · simp [scope.GKEClusterScope.Close, scope.GKEClusterScope.PatchObject, hs1.1, hs1.2, hg2,
      hg5, patch.Helper.Patch]

/-- C9 at the sample scopes, closed right after construction against a store that would
answer every update with a conflict. -/
theorem Close_unmutated_no_write_witness :
    sample.poolScope.Close (fun _ _ => some { msg := "conflict" }) =
      some { err := none, writes := [] } ∧
    sample.clusterScope.Close (fun _ _ => some { msg := "conflict" }) =
      some { err := none, writes := [] } :=
  Close_unmutated_no_write sample.env sample.env sample.poolParams sample.clusterParams
    sample.poolScope sample.poolScope sample.clusterScope sample.clusterScope _ _ rfl rfl
    ⟨rfl, rfl⟩ ⟨rfl, rfl⟩

/-- The commit is not idle: closing the sample scope after `SetReady` sends exactly one
conditional update, for the ready node pool and with the expected version `"1"`, and returns
what the store answers. -/
theorem Close_after_SetReady_writes_once
    (store : Client → patch.ConditionalUpdate GKEMachinePool → Option GoError) :
    sample.poolScope.SetReady = some sample.readyPoolScope ∧
    ∃ w, w.expectedVersion = "1" ∧ w.object.Status.Ready = true ∧
      sample.readyPoolScope.Close store = some { err := store { handle := 7 } w, writes := [w] } := by
  refine ⟨rfl,
    ⟨{ sample.gkeMachinePool with
        Status := { sample.gkeMachinePool.Status with Ready := true } }, "1"⟩, rfl, rfl, ?_⟩
  simp [scope.GKEMachinePoolScope.Close, scope.GKEMachinePoolScope.PatchObject,
    sample.readyPoolScope, sample.poolScope, patch.Helper.Patch, sample.gkeMachinePool,
    HasObjectMeta.objectMeta]

/-! ## Registration in `main` -/

/-- C10: webhook mode and controller mode exclude each other in `main`, whatever the manager
calls answer. With `webhook-port` different from 0 every installed component is one of the
webhooks `GCPMachineTemplate` and `GCPMachine`, none is a reconciler, and a run that reaches
`mgr.Start` has installed exactly these two. With `webhook-port` equal to 0, which is the
default of `initFlags`, every installed component is the `GKEMachinePool` or the `GKECluster`
reconciler, none is a webhook, none is the disabled `GCPMachine` or `GCPCluster` reconciler,
and a run that reaches `mgr.Start` has installed exactly these two. A run reaches `mgr.Start`
whenever no manager call before it returns an error. -/
theorem webhook_and_controller_exclusive (env : cmd.MainEnv) (flags : cmd.Flags) :
    cmd.initFlags.webhookPort = 0 ∧
    (flags.webhookPort ≠ 0 →
      (∀ c ∈ (cmd.main env flags).installed,
        (c = .GCPMachineTemplateWebhook ∨ c = .GCPMachineWebhook) ∧ c.isReconciler = false) ∧
      ((cmd.main env flags).started = true →
        (cmd.main env flags).installed = [.GCPMachineTemplateWebhook, .GCPMachineWebhook])) ∧
    (flags.webhookPort = 0 →
      (∀ c ∈ (cmd.main env flags).installed,
        (c = .GKEMachinePoolReconciler ∨ c = .GKEClusterReconciler) ∧ c.isWebhook = false ∧
          c ≠ .GCPMachineReconciler ∧ c ≠ .GCPClusterReconciler) ∧
      ((cmd.main env flags).started = true →
        (cmd.main env flags).installed = [.GKEMachinePoolReconciler, .GKEClusterReconciler])) ∧
    (env.newManagerErr = none → (∀ c, env.setupErr c = none) →
      env.addReadyzCheckErr = none → env.addHealthzCheckErr = none →
      (cmd.main env flags).started = true) := by
  obtain ⟨nm, su, rz, hz, st⟩ := env
  refine ⟨rfl, ?_, ?_, ?_⟩
  · intro hport
    cases nm <;> cases h1 : su .GCPMachineTemplateWebhook <;>
      cases h2 : su .GCPMachineWebhook <;> cases rz <;> cases hz <;> cases st <;>
      simp [cmd.main, hport, h1, h2, cmd.Component.isReconciler]
  · intro hport
    cases nm <;> cases h1 : su .GKEMachinePoolReconciler <;>
      cases h2 : su .GKEClusterReconciler <;> cases rz <;> cases hz <;> cases st <;>
      simp [cmd.main, hport, h1, h2, cmd.Component.isWebhook]
  · intro hnm hsu hrz hhz
    simp only at hnm hsu hrz hhz
    subst hnm hrz hhz
    by_cases hport : flags.webhookPort = 0 <;> cases st <;> simp [cmd.main, hport, hsu]

/-- C10 at the default flags and at `webhook-port = 9443`, every manager call succeeding:
the first run installs the two GKE reconcilers, the second the two webhooks. -/
theorem webhook_and_controller_exclusive_witness :
    (cmd.main cmd.allSucceed cmd.initFlags).installed =
      [.GKEMachinePoolReconciler, .GKEClusterReconciler] ∧
    (cmd.main cmd.allSucceed { cmd.initFlags with webhookPort := 9443 }).installed =
      [.GCPMachineTemplateWebhook, .GCPMachineWebhook] :=
  ⟨(webhook_and_controller_exclusive cmd.allSucceed cmd.initFlags).2.2.1 rfl |>.2 rfl,
    (webhook_and_controller_exclusive cmd.allSucceed
      { cmd.initFlags with webhookPort := 9443 }).2.1 (by decide) |>.2 rfl⟩

/-! ## Frame of the setters -/

/-- C12: each setter of `GKEMachinePoolScope` writes its own field of the wrapped node pool
resource and nothing else. On a scope that wraps a node pool resource `p`, `SetReady` leaves
`status.failureReason`, `status.failureMessage` and the annotations of `p`; `SetFailureReason`
leaves `status.ready`, `status.failureMessage` and the annotations; `SetFailureMessage` with a
non-nil error leaves `status.ready`, `status.failureReason` and the annotations;
`SetAnnotation` leaves the whole status. In every case the name, namespace, spec and
resourceVersion of the resource are those of `p`, and the scope keeps its references to
`Cluster`, `MachinePool` and `GKECluster`, its client, its logger and its patch helper. -/
theorem setters_frame (m : scope.GKEMachinePoolScope) (p : GKEMachinePool)
    (r : MachineStatusError) (e : GoError) (key value : String)
    (h : m.GKEMachinePool = some p) :
    (∃ m1 p1, m.SetReady = some m1 ∧ m1.GKEMachinePool = some p1 ∧
      p1.Status.FailureReason = p.Status.FailureReason ∧
      p1.Status.FailureMessage = p.Status.FailureMessage ∧
      p1.Annotations = p.Annotations ∧
      p1.Name = p.Name ∧ p1.Namespace = p.Namespace ∧ p1.Spec = p.Spec ∧
      p1.ResourceVersion = p.ResourceVersion ∧
      m1.Cluster = m.Cluster ∧ m1.MachinePool = m.MachinePool ∧ m1.GKECluster = m.GKECluster ∧
      m1.client = m.client ∧ m1.Logger = m.Logger ∧ m1.patchHelper = m.patchHelper) ∧
    (∃ m1 p1, m.SetFailureReason r = some m1 ∧ m1.GKEMachinePool = some p1 ∧
      p1.Status.Ready = p.Status.Ready ∧
      p1.Status.FailureMessage = p.Status.FailureMessage ∧
      p1.Annotations = p.Annotations ∧
      p1.Name = p.Name ∧ p1.Namespace = p.Namespace ∧ p1.Spec = p.Spec ∧
      p1.ResourceVersion = p.ResourceVersion ∧
      m1.Cluster = m.Cluster ∧ m1.MachinePool = m.MachinePool ∧ m1.GKECluster = m.GKECluster ∧
      m1.client = m.client ∧ m1.Logger = m.Logger ∧ m1.patchHelper = m.patchHelper) ∧
    (∃ m1 p1, m.SetFailureMessage (some e) = some m1 ∧ m1.GKEMachinePool = some p1 ∧
      p1.Status.Ready = p.Status.Ready ∧
      p1.Status.FailureReason = p.Status.FailureReason ∧
      p1.Annotations = p.Annotations ∧
      p1.Name = p.Name ∧ p1.Namespace = p.Namespace ∧ p1.Spec = p.Spec ∧
      p1.ResourceVersion = p.ResourceVersion ∧
      m1.Cluster = m.Cluster ∧ m1.MachinePool = m.MachinePool ∧ m1.GKECluster = m.GKECluster ∧
      m1.client = m.client ∧ m1.Logger = m.Logger ∧ m1.patchHelper = m.patchHelper) ∧
    (∃ m1 p1, m.SetAnnotation key value = some m1 ∧ m1.GKEMachinePool = some p1 ∧
      p1.Status = p.Status ∧
      p1.Name = p.Name ∧ p1.Namespace = p.Namespace ∧ p1.Spec = p.Spec ∧
      p1.ResourceVersion = p.ResourceVersion ∧
      m1.Cluster = m.Cluster ∧ m1.MachinePool = m.MachinePool ∧ m1.GKECluster = m.GKECluster ∧
      m1.client = m.client ∧ m1.Logger = m.Logger ∧ m1.patchHelper = m.patchHelper) := by
  obtain ⟨lg, c, ph, cl, mp, g, q⟩ := m
  simp only at h
  subst h
  refine ⟨⟨_, _, rfl, rfl, ?_⟩, ⟨_, _, rfl, rfl, ?_⟩, ⟨_, _, rfl, rfl, ?_⟩, ⟨_, _, rfl, rfl, ?_⟩⟩
  · exact ⟨rfl, rfl, rfl, rfl, rfl, rfl, rfl, rfl, rfl, rfl, rfl, rfl, rfl⟩
  · exact ⟨rfl, rfl, rfl, rfl, rfl, rfl, rfl, rfl, rfl, rfl, rfl, rfl, rfl⟩
  · exact ⟨rfl, rfl, rfl, rfl, rfl, rfl, rfl, rfl, rfl, rfl, rfl, rfl, rfl⟩
  · exact ⟨rfl, rfl, rfl, rfl, rfl, rfl, rfl, rfl, rfl, rfl, rfl⟩

/-- C12 at the sample scope: after `SetAnnotation "owner" "capg"` the node pool is still
`pool-a` in `default` at resourceVersion `"1"` with its status as before, and after `SetReady`
its annotations map is still nil. -/
theorem setters_frame_witness :
    (∃ m1 p1, sample.poolScope.SetReady = some m1 ∧ m1.GKEMachinePool = some p1 ∧
      p1.Annotations = none ∧ p1.Status.FailureReason = none) ∧
    (∃ m1 p1, sample.poolScope.SetAnnotation "owner" "capg" = some m1 ∧
      m1.GKEMachinePool = some p1 ∧ p1.Status = sample.gkeMachinePool.Status ∧
      p1.Name = "pool-a" ∧ p1.Namespace = "default" ∧ p1.ResourceVersion = "1" ∧
      m1.GKECluster = some sample.gkeCluster) :=
  have h := setters_frame sample.poolScope sample.gkeMachinePool "CreateError"
    { msg := "quota" } "owner" "capg" rfl
  ⟨by
      obtain ⟨m1, p1, h1, h2, h3, -, h5, -⟩ := h.1
      exact ⟨m1, p1, h1, h2, h5, h3⟩,
    by
      obtain ⟨m1, p1, h1, h2, h3, h4, h5, -, h7, -, -, h10, -⟩ := h.2.2.2
      exact ⟨m1, p1, h1, h2, h3, h4, h5, h7, h10⟩⟩

end CapiGcp
